import Mathlib

/-!
Shallow embedding of the essay-evaluation backend (Express/Mongoose app).
The engine `evaluateEssayAI` and the two state-changing routes
(`POST /api/essays/evaluate`, `PUT /api/essays/:id`) are translated from the
JavaScript source.  Texts are modelled as `List Char`; JavaScript numbers are
modelled as `ℚ` (every quantity produced by the engine is rational); the calls
to `Math.random()` are abstracted as explicit rational draws in `[0, 1)`.
-/

set_option maxRecDepth 8000

namespace AIEssay

/-- Character class of the regex `\s` restricted to the ASCII range
(space, tab, line feed, carriage return, vertical tab, form feed).
Unicode space separators also matched by JavaScript's `\s` are not modelled. -/
def isWsVal (n : Nat) : Bool :=
  decide (n = 32 ∨ n = 9 ∨ n = 10 ∨ n = 13 ∨ n = 11 ∨ n = 12)

/-- Whitespace test on characters, via their code points. -/
def jsWs (c : Char) : Bool := isWsVal c.toNat

/-- Character class of the regex `[.!?]` used to split sentences. -/
def jsSentSep (c : Char) : Bool := decide (c = '.' ∨ c = '!' ∨ c = '?')

/-- Model of `String.prototype.toLowerCase` on a single character, restricted to the
basic latin letters `A`..`Z` (code points 65..90 map to 97..122).
Unicode case mapping beyond ASCII is not modelled. -/
def jsLowerChar (c : Char) : Char :=
  if h : 65 ≤ c.toNat ∧ c.toNat ≤ 90 then
    Char.ofNatAux (c.toNat + 32) (Or.inl (by omega))
  else c

/-- Model of `String.prototype.trim`: drop leading and trailing whitespace. -/
def jsTrim (s : List Char) : List Char :=
  ((s.dropWhile jsWs).reverse.dropWhile jsWs).reverse

/-- Model of `String.prototype.split` against the regex `[C]+` for a character class
`C` (as used with `/\s+/` and `/[.!?]+/` in the source): the fragments lying
between maximal runs of class-`C` characters.  A leading (resp. trailing) run
contributes a leading (resp. trailing) empty fragment, and splitting the empty
string yields `[[]]`, exactly as in JavaScript. -/
def splitRuns (p : Char → Bool) : List Char → List (List Char)
  | [] => [[]]
  | c :: cs =>
    let r := splitRuns p cs
    if p c then
      match cs with
      | [] => [] :: r
      | c2 :: _ => if p c2 then r else [] :: r
    else
      match r with
      | [] => [[c]]
      | f :: fs => (c :: f) :: fs

/-- Source expression `essayText.trim().split(/\s+/).length` (line 117 of the backend). -/
def wordCount (t : List Char) : Nat :=
  (splitRuns jsWs (jsTrim t)).length

/-- Source expression `essayText.length` (line 118).  `.length` counts UTF-16 units; for the
texts considered here (Basic Multilingual Plane) this is the character count. -/
def charCount (t : List Char) : Nat := t.length

/-- Source expression `essayText.split(/[.!?]+/).filter(s => s.trim().length > 0)` (line 119). -/
def sentences (t : List Char) : List (List Char) :=
  (splitRuns jsSentSep t).filter (fun s => 0 < (jsTrim s).length)

/-- Number of non-empty sentence fragments.  The source applies no lower
bound: this can be `0` (e.g. for a text consisting only of punctuation). -/
def sentenceCount (t : List Char) : Nat := (sentences t).length

/-- Source expression `wordCount / sentences.length` (line 129).  When `sentences.length = 0`,
JavaScript division of the positive `wordCount` by `0` yields `+Infinity`,
modelled here as `none`. -/
def avgSentenceLength (t : List Char) : Option ℚ :=
  if sentenceCount t = 0 then none
  else some ((wordCount t : ℚ) / (sentenceCount t : ℚ))

/-- Comparison `q <= avgSentenceLength` on the JS value, `none` standing for `+Infinity`
(so the comparison is true). -/
def avgGE (t : List Char) (q : ℚ) : Bool :=
  match avgSentenceLength t with
  | none => true
  | some a => decide (q ≤ a)

/-- Comparison `avgSentenceLength <= q` on the JS value, `none` standing for `+Infinity`
(so the comparison is false). -/
def avgLE (t : List Char) (q : ℚ) : Bool :=
  match avgSentenceLength t with
  | none => false
  | some a => decide (a ≤ q)

/-- Comparison `avgSentenceLength < q` on the JS value, `none` standing for `+Infinity`. -/
def avgLT (t : List Char) (q : ℚ) : Bool :=
  match avgSentenceLength t with
  | none => false
  | some a => decide (a < q)

/-- Comparison `q < avgSentenceLength` on the JS value, `none` standing for `+Infinity`. -/
def avgGT (t : List Char) (q : ℚ) : Bool :=
  match avgSentenceLength t with
  | none => true
  | some a => decide (q < a)

/-- Source expression `essayText.toLowerCase().split(/\s+/)` (line 134).  Note: the text is NOT
trimmed first, so leading/trailing whitespace contributes empty fragments. -/
def words (t : List Char) : List (List Char) :=
  splitRuns jsWs (t.map jsLowerChar)

/-- Source expression `new Set(words).size` (line 135): number of distinct fragments. -/
def uniqueWordCount (t : List Char) : Nat := (words t).dedup.length

/-- Source expression `uniqueWords.size / words.length` (line 136). -/
def vocabularyRichness (t : List Char) : ℚ :=
  (uniqueWordCount t : ℚ) / ((words t).length : ℚ)

/-- The deterministic part of the score (lines 121-139): start at 70, add the
length bonus/penalty, the sentence-length bonus and the vocabulary bonus. -/
def baseScore (t : List Char) : ℚ :=
  let wc := wordCount t
  let b1 : ℚ := 70 + (if 300 ≤ wc ∧ wc ≤ 800 then 10 else if wc < 100 then -15 else 0)
  let b2 : ℚ := b1 + (if avgGE t 15 && avgLE t 25 then 5 else 0)
  b2 + (if (3 : ℚ)/5 < vocabularyRichness t then 8 else 0)

/-- One rational draw standing for each of the six `Math.random()` calls made
by `evaluateEssayAI`, in source order. -/
structure Draws where
  rOverall : ℚ
  rGrammar : ℚ
  rStructure : ℚ
  rCoherence : ℚ
  rVocabulary : ℚ
  rArguments : ℚ
deriving DecidableEq

/-- A faithful draw lies in `[0, 1)`, as `Math.random()` does. -/
def unitIntv (r : ℚ) : Prop := 0 ≤ r ∧ r < 1

/-- All six draws lie in `[0, 1)`. -/
def Draws.valid (d : Draws) : Prop :=
  unitIntv d.rOverall ∧ unitIntv d.rGrammar ∧ unitIntv d.rStructure ∧
  unitIntv d.rCoherence ∧ unitIntv d.rVocabulary ∧ unitIntv d.rArguments

instance (d : Draws) : Decidable d.valid := by
  unfold Draws.valid unitIntv; infer_instance

/-- Source expression `Math.max(50, Math.min(98, baseScore + randomFactor))` with
`randomFactor = Math.random() * 12 - 6` (lines 141-142).  This is the
unrounded overall score; the breakdown is computed from it. -/
def overallScoreRaw (t : List Char) (d : Draws) : ℚ :=
  max 50 (min 98 (baseScore t + (d.rOverall * 12 - 6)))

/-- Model of `Math.round`: round to the nearest integer, halves toward `+Infinity`. -/
def jsRound (q : ℚ) : ℤ := ⌊q + 1/2⌋

/-- Source expression `Math.round(overallScore * 10) / 10` (line 202): the overall score as
returned, rounded to one decimal place. -/
def overallScore (t : List Char) (d : Draws) : ℚ :=
  (jsRound (overallScoreRaw t d * 10) : ℚ) / 10

/-- The five-category breakdown record.  The JS field `structure` is a Lean
keyword and is rendered `structureScore`. -/
structure Breakdown where
  grammar : ℚ
  structureScore : ℚ
  coherence : ℚ
  vocabulary : ℚ
  arguments : ℚ
deriving DecidableEq

/-- Lines 144-150: each category is `Math.min(100, overallScore + (Math.random() * w - s))`
with the unrounded overall score and the source's literal widths and shifts
(`*10-5`, `*8-4`, `*12-6`, `*10-5`, `*15-7`). -/
def breakdown (t : List Char) (d : Draws) : Breakdown :=
  { grammar := min 100 (overallScoreRaw t d + (d.rGrammar * 10 - 5))
  , structureScore := min 100 (overallScoreRaw t d + (d.rStructure * 8 - 4))
  , coherence := min 100 (overallScoreRaw t d + (d.rCoherence * 12 - 6))
  , vocabulary := min 100 (overallScoreRaw t d + (d.rVocabulary * 10 - 5))
  , arguments := min 100 (overallScoreRaw t d + (d.rArguments * 15 - 7)) }

/-- A rewrite suggestion `{original, improved, reason}`. -/
structure Suggestion where
  original : String
  improved : String
  reason : String
deriving DecidableEq

/-- Lines 152-166: the strengths list, pushed in source order. -/
def strengthsList (t : List Char) (d : Draws) : List String :=
  (if 85 < (breakdown t d).grammar then ["Excellent grammar with minimal errors"] else []) ++
  (if 80 < (breakdown t d).structureScore then ["Well-organized essay structure with clear progression"] else []) ++
  (if 500 < wordCount t then ["Comprehensive coverage of the topic"] else []) ++
  (if (13 : ℚ)/20 < vocabularyRichness t then ["Rich and varied vocabulary usage"] else [])

/-- Lines 168-179: the improvements list, pushed in source order. -/
def improvementsList (t : List Char) (d : Draws) : List String :=
  (if (breakdown t d).coherence < 75 then ["Improve logical flow between paragraphs"] else []) ++
  (if avgGT t 30 then ["Consider breaking down complex sentences for clarity"] else []) ++
  (if wordCount t < 300 then ["Expand arguments with more supporting evidence"] else []) ++
  (if (breakdown t d).arguments < 80 then ["Strengthen main arguments with specific examples"] else [])

/-- Lines 181-192: of the first three sentences only the first can produce a
suggestion, when its trimmed length is under 80 characters. -/
def suggestionsList (t : List Char) : List Suggestion :=
  match sentences t with
  | [] => []
  | s0 :: _ =>
    if (jsTrim s0).length < 80 then
      [{ original := String.mk (jsTrim s0) ++ "."
       , improved := "Consider expanding your opening statement to provide more context and engage the reader immediately."
       , reason := "Stronger opening statement" }]
    else []

/-- Lines 194-199: readability from the average sentence length (recall that
the average is `+Infinity` when the sentence count is 0, hence `Graduate`). -/
def readability (t : List Char) : String :=
  if avgLT t 15 then "High School Level"
  else if avgGT t 25 then "Graduate Level"
  else "College Level"

/-- Source expression `Math.ceil(wordCount / 200)` (line 214), as ceiling division on `Nat`. -/
def estimatedReadTime (t : List Char) : Nat := (wordCount t + 199) / 200

/-- The assessment record returned by the engine (lines 201-215). -/
structure EvalResult where
  overallScore : ℚ
  breakdown : Breakdown
  strengths : List String
  improvements : List String
  suggestions : List Suggestion
  wordCount : Nat
  charCount : Nat
  readability : String
  estimatedReadTime : Nat
deriving DecidableEq

/-- The function `evaluateEssayAI` (lines 116-216), with the six `Math.random()` calls
made explicit as `d`.  Empty strength/improvement/suggestion lists are
replaced by the fixed defaults, as in the source. -/
def evaluateEssayAI (t : List Char) (d : Draws) : EvalResult :=
  { overallScore := overallScore t d
  , breakdown := breakdown t d
  , strengths :=
      if strengthsList t d ≠ [] then strengthsList t d
      else ["Clear writing style", "Good effort in addressing the topic"]
  , improvements :=
      if improvementsList t d ≠ [] then improvementsList t d
      else ["Continue refining your arguments", "Consider adding more specific examples"]
  , suggestions :=
      if suggestionsList t ≠ [] then suggestionsList t
      else [{ original := "Sample text for improvement"
            , improved := "Enhanced version with better structure and vocabulary"
            , reason := "Improved clarity and impact" }]
  , wordCount := wordCount t
  , charCount := charCount t
  , readability := readability t
  , estimatedReadTime := estimatedReadTime t }

/-- A stored essay submission (schema lines 55-108).  The store-maintained
timestamps are not modelled; `userId` is never set by any route. -/
structure Essay where
  userId : Option String
  text : List Char
  university : List Char
  level : String
  wordCount : Nat
  charCount : Nat
  results : Option EvalResult
  status : String
deriving DecidableEq

/-- The `level` enum of the schema (lines 69-73). -/
def validLevel (s : String) : Prop := s = "undergrad" ∨ s = "mba"

/-- The `status` enum of the schema (lines 101-105). -/
def validStatus (s : String) : Prop :=
  s = "draft" ∨ s = "evaluated" ∨ s = "archived"

instance (s : String) : Decidable (validLevel s) := by unfold validLevel; infer_instance
instance (s : String) : Decidable (validStatus s) := by unfold validStatus; infer_instance

/-- The submission built by `POST /api/essays/evaluate` (lines 312-320) for a
text that passed validation: `lvl` is the already-resolved level string. -/
def newEssay (s : List Char) (univ : Option (List Char)) (lvl : String) (d : Draws) : Essay :=
  let results := evaluateEssayAI s d
  { userId := none
  , text := s
  , university := univ.getD []  -- `university || ''`: absent (and empty) become ''
  , level := lvl
  , wordCount := results.wordCount
  , charCount := results.charCount
  , results := some results
  , status := "evaluated" }

/-- Route `POST /api/essays/evaluate` (lines 299-337) as a transition on the stored
list of essays, returning the HTTP status code and the new store.
`text`/`university` are the optional request-body strings, `level` the
optional level string.  `!text || text.trim().length < 10` rejects with 400.
On save, Mongoose validates the schema (`text` minlength 10, `level` enum);
a validation failure is caught by the generic handler and returns 500 with
nothing persisted. -/
def postEvaluate (store : List Essay) (text univ : Option (List Char))
    (level : Option String) (d : Draws) : Nat × List Essay :=
  match text with
  | none => (400, store)
  | some s =>
    if s = [] ∨ (jsTrim s).length < 10 then (400, store)
    else
      let lvl := match level with
        | some l => if l = "" then "undergrad" else l  -- `level || 'undergrad'`
        | none => "undergrad"
      if validLevel lvl ∧ 10 ≤ s.length then
        (201, store ++ [newEssay s univ lvl d])
      else (500, store)

/-- Route `PUT /api/essays/:id` (lines 339-380) as a transition on the stored list
of essays, the id modelled as a position `i`.  `if (text)`, `if (level)` and
`if (status)` treat empty strings as absent; `if (university !== undefined)`
applies even an empty string.  `findByIdAndUpdate` runs with
`runValidators: true`, so an updated `text` must satisfy minlength 10 and
updated `level`/`status` must belong to their enums, else the thrown
validation error yields 500 and the store is unchanged. -/
def putEssay (store : List Essay) (i : Nat) (text univ : Option (List Char))
    (level status : Option String) : Nat × List Essay :=
  let textUpd : Option (List Char) :=
    match text with
    | some s => if s = [] then none else some s
    | none => none
  let levelUpd : Option String :=
    match level with
    | some l => if l = "" then none else some l
    | none => none
  let statusUpd : Option String :=
    match status with
    | some st => if st = "" then none else some st
    | none => none
  match store.get? i with
  | none => (404, store)
  | some e =>
    if textUpd.any (fun s => decide (s.length < 10)) then (500, store)
    else if levelUpd.any (fun l => decide (¬ validLevel l)) then (500, store)
    else if statusUpd.any (fun st => decide (¬ validStatus st)) then (500, store)
    else
      let e' : Essay :=
        { e with
          text := textUpd.getD e.text
        , wordCount := match textUpd with
            | some s => wordCount s  -- `text.trim().split(/\s+/).length`
            | none => e.wordCount
        , charCount := match textUpd with
            | some s => s.length
            | none => e.charCount
        , university := univ.getD e.university
        , level := levelUpd.getD e.level
        , status := statusUpd.getD e.status }
      (200, store.set i e')

/-! ### Concrete inputs used by witnesses and counterexamples -/

/-- Model of `s.repeat(n)` on character lists. -/
def repeatStr (s : List Char) : Nat → List Char
  | 0 => []
  | n + 1 => s ++ repeatStr s n

/-- A minimal accepted text: exactly 10 non-whitespace characters. -/
def sampleText : List Char := ("0123456789").data

/-- The spec's short rejected example. -/
def hiText : List Char := ("hi").data

/-- Ten dots: accepted (trimmed length 10) but with zero non-empty
sentence fragments. -/
def tenDots : List Char := ("..........").data

/-- The text `"word ".repeat(60)`. -/
def wordText : List Char := repeatStr (("word ").data) 60

/-- Three repeated words, no surrounding whitespace. -/
def catsTxt : List Char := ("cats cats cats").data

/-- The same text with one leading space. -/
def wsCats : List Char := (" cats cats cats").data

/-- All six draws at 0 (every `Math.random()` call returning 0). -/
def zeroDraws : Draws :=
  { rOverall := 0, rGrammar := 0, rStructure := 0
  , rCoherence := 0, rVocabulary := 0, rArguments := 0 }

/-- Draws with a large (but valid) arguments draw and all others 0. -/
def dArgHigh : Draws :=
  { rOverall := 0, rGrammar := 0, rStructure := 0
  , rCoherence := 0, rVocabulary := 0, rArguments := 15/16 }

/-- Clamping to a closed interval, as the spec phrases step 6 of the scorer. -/
def clamp (lo hi q : ℚ) : ℚ := max lo (min hi q)

/-- Rounding to one decimal place, `Math.round(q * 10) / 10`. -/
def roundTo1 (q : ℚ) : ℚ := (jsRound (q * 10) : ℚ) / 10

/-- The base-score computation in the words of the spec (C2): start at 70;
+10 if `300 ≤ wordCount ≤ 800`, else −15 if `wordCount < 100`, else nothing;
+5 if `15 ≤ avgSentenceLength ≤ 25`; +8 if `vocabularyRichness > 0.6`. -/
def claimedBaseScore (t : List Char) : ℚ :=
  70 + (if 300 ≤ wordCount t ∧ wordCount t ≤ 800 then 10
        else if wordCount t < 100 then -15 else 0)
     + (if avgGE t 15 && avgLE t 25 then 5 else 0)
     + (if (3 : ℚ)/5 < vocabularyRichness t then 8 else 0)

/-- Vocabulary richness in the words of the spec (C5): distinct case-folded
whitespace-delimited tokens of the trimmed text, divided by `wordCount`. -/
def specVocabularyRichness (t : List Char) : ℚ :=
  ((((splitRuns jsWs (jsTrim t)).map (List.map jsLowerChar)).dedup.length : ℚ)) /
    (wordCount t : ℚ)

/-! ### Helper lemmas -/

theorem dropWhile_length_le (p : Char → Bool) (l : List Char) :
    (l.dropWhile p).length ≤ l.length := by
  induction l with
  | nil => simp
  | cons c cs ih =>
    by_cases h : p c
    · simp only [List.dropWhile_cons, h, if_true]
      exact Nat.le_succ_of_le ih
    · simp [List.dropWhile_cons, h]

theorem jsTrim_length_le (s : List Char) : (jsTrim s).length ≤ s.length := by
  unfold jsTrim
  calc ((s.dropWhile jsWs).reverse.dropWhile jsWs).reverse.length
      = ((s.dropWhile jsWs).reverse.dropWhile jsWs).length := List.length_reverse _
    _ ≤ (s.dropWhile jsWs).reverse.length := dropWhile_length_le _ _
    _ = (s.dropWhile jsWs).length := List.length_reverse _
    _ ≤ s.length := dropWhile_length_le _ _

theorem get?_some_lt {α : Type} {l : List α} {i : Nat} {a : α}
    (h : l.get? i = some a) : i < l.length := by
  induction l generalizing i with
  | nil => simp [List.get?] at h
  | cons x xs ih =>
    cases i with
    | zero => simp
    | succ j => simpa using Nat.succ_lt_succ (ih (by simpa [List.get?] using h))

theorem set_get?_same {α : Type} {l : List α} {i : Nat} {a : α}
    (h : l.get? i = some a) : l.set i a = l := by
  induction l generalizing i with
  | nil => simp
  | cons x xs ih =>
    cases i with
    | zero => simp_all [List.get?]
    | succ j =>
      simp only [List.set]
      rw [ih (by simpa [List.get?] using h)]

theorem jsWs_jsLowerChar (c : Char) : jsWs (jsLowerChar c) = jsWs c := by
  unfold jsLowerChar
  split
  · rename_i h
    show isWsVal (Char.ofNatAux (c.toNat + 32) _).toNat = isWsVal c.toNat
    have ht : (Char.ofNatAux (c.toNat + 32) (Or.inl (by omega))).toNat = c.toNat + 32 := rfl
    rw [ht]
    unfold isWsVal
    rw [decide_eq_decide]
    omega
  · rfl

theorem splitRuns_cons (p : Char → Bool) (c : Char) (cs : List Char) :
    splitRuns p (c :: cs) =
      (if p c then
        match cs with
        | [] => [] :: splitRuns p cs
        | c2 :: _ => if p c2 then splitRuns p cs else [] :: splitRuns p cs
      else
        match splitRuns p cs with
        | [] => [[c]]
        | f :: fs => (c :: f) :: fs) := rfl

theorem splitRuns_map (p : Char → Bool) (f : Char → Char)
    (hf : ∀ c, p (f c) = p c) (l : List Char) :
    splitRuns p (l.map f) = (splitRuns p l).map (List.map f) := by
  induction l with
  | nil => rfl
  | cons c cs ih =>
    simp only [List.map_cons]
    rw [splitRuns_cons, splitRuns_cons, hf c]
    by_cases hp : p c
    · simp only [hp, if_true]
      cases cs with
      | nil => simp only [List.map_nil]; rfl
      | cons c2 cs2 =>
        simp only [List.map_cons]
        rw [hf c2]
        by_cases hp2 : p c2
        · simp only [hp2, if_true]
          simpa using ih
        · simp only [hp2, if_false]
          simpa using ih
    · simp only [hp, if_false]
      rcases hr : splitRuns p cs with _ | ⟨g, gs⟩
      · rw [show splitRuns p (cs.map f) = [] by rw [ih, hr]; rfl]
        rfl
      · rw [show splitRuns p (cs.map f) = (g.map f) :: gs.map (List.map f) by
          rw [ih, hr]; rfl]
        simp

/-- Rounding to one decimal place keeps a value inside `[50, 98]`. -/
theorem roundTo1_bounds {q : ℚ} (h1 : 50 ≤ q) (h2 : q ≤ 98) :
    50 ≤ roundTo1 q ∧ roundTo1 q ≤ 98 := by
  unfold roundTo1 jsRound
  have hlo : (500 : ℤ) ≤ ⌊q * 10 + 1/2⌋ := by
    rw [Int.le_floor]; push_cast; linarith
  have hhi : ⌊q * 10 + 1/2⌋ < (981 : ℤ) := by
    rw [Int.floor_lt]; push_cast; linarith
  constructor
  · rw [le_div_iff (by norm_num : (0:ℚ) < 10)]
    calc (50 : ℚ) * 10 = ((500 : ℤ) : ℚ) := by norm_num
      _ ≤ _ := by exact_mod_cast hlo
  · rw [div_le_iff (by norm_num : (0:ℚ) < 10)]
    calc ((⌊q * 10 + 1/2⌋ : ℤ) : ℚ) ≤ ((980 : ℤ) : ℚ) := by
          exact_mod_cast (by omega : ⌊q * 10 + 1/2⌋ ≤ 980)
      _ = 98 * 10 := by norm_num

/-! ### C1 -/

/-- C1: for every input text whose trimmed length is at least 10 and every
sequence of draws of the random source, the returned `overallScore` lies in
`[50, 98]` and is an integer multiple of `1/10` (one decimal place), and each
of the five breakdown values is at most 100. -/
theorem overallScore_breakdown_bounds (t : List Char) (d : Draws)
    (ht : 10 ≤ (jsTrim t).length) (hd : d.valid) :
    (50 ≤ overallScore t d ∧ overallScore t d ≤ 98) ∧
    (∃ k : ℤ, overallScore t d = (k : ℚ) / 10) ∧
    (breakdown t d).grammar ≤ 100 ∧ (breakdown t d).structureScore ≤ 100 ∧
    (breakdown t d).coherence ≤ 100 ∧ (breakdown t d).vocabulary ≤ 100 ∧
    (breakdown t d).arguments ≤ 100 := by
  have hraw1 : 50 ≤ overallScoreRaw t d := le_max_left _ _
  have hraw2 : overallScoreRaw t d ≤ 98 :=
    max_le (by norm_num) (min_le_left _ _)
  refine ⟨roundTo1_bounds hraw1 hraw2, ⟨jsRound (overallScoreRaw t d * 10), rfl⟩,
    ?_, ?_, ?_, ?_, ?_⟩ <;> exact min_le_left _ _

/-- Witness for C1 at the ten-character text `"0123456789"` with all draws 0. -/
theorem overallScore_breakdown_bounds_witness :
    (50 ≤ overallScore sampleText zeroDraws ∧ overallScore sampleText zeroDraws ≤ 98) ∧
    (∃ k : ℤ, overallScore sampleText zeroDraws = (k : ℚ) / 10) ∧
    (breakdown sampleText zeroDraws).grammar ≤ 100 ∧
    (breakdown sampleText zeroDraws).structureScore ≤ 100 ∧
    (breakdown sampleText zeroDraws).coherence ≤ 100 ∧
    (breakdown sampleText zeroDraws).vocabulary ≤ 100 ∧
    (breakdown sampleText zeroDraws).arguments ≤ 100 :=
  overallScore_breakdown_bounds sampleText zeroDraws (by decide) (by decide)

/-! ### C2 -/

/-- C2: for every accepted text, the returned `overallScore` is obtained by
clamping `claimedBaseScore + p` to `[50, 98]` and rounding to one decimal
place, where the perturbation `p` coming from the uniform draw lies in
`[-6, 6)`.  `claimedBaseScore` is the spec's base score: 70, plus 10 if
`300 ≤ wordCount ≤ 800` else minus 15 if `wordCount < 100`, plus 5 for
`15 ≤ avgSentenceLength ≤ 25`, plus 8 for `vocabularyRichness > 0.6`. -/
theorem score_pipeline_refines_spec (t : List Char) (d : Draws)
    (ht : 10 ≤ (jsTrim t).length) (hd : d.valid) :
    ∃ p : ℚ, -6 ≤ p ∧ p < 6 ∧
      overallScore t d = roundTo1 (clamp 50 98 (claimedBaseScore t + p)) := by
  refine ⟨d.rOverall * 12 - 6, ?_, ?_, rfl⟩
  · have h := hd.1.1; linarith
  · have h := hd.1.2; linarith

/-- Witness for C2 at `"0123456789"` with all draws 0. -/
theorem score_pipeline_refines_spec_witness :
    ∃ p : ℚ, -6 ≤ p ∧ p < 6 ∧
      overallScore sampleText zeroDraws =
        roundTo1 (clamp 50 98 (claimedBaseScore sampleText + p)) :=
  score_pipeline_refines_spec sampleText zeroDraws (by decide) (by decide)

/-! ### Concrete evaluations of the engine used below -/

theorem sampleText_wordCount : wordCount sampleText = 1 := by decide

theorem sampleText_avg : avgSentenceLength sampleText = some 1 := by
  rw [avgSentenceLength, if_neg (by decide : ¬ sentenceCount sampleText = 0)]
  rw [sampleText_wordCount, (by decide : sentenceCount sampleText = 1)]
  norm_num

theorem sampleText_richness : vocabularyRichness sampleText = 1 := by
  rw [vocabularyRichness, (by decide : uniqueWordCount sampleText = 1),
    (by decide : (words sampleText).length = 1)]
  norm_num

theorem sampleText_base : baseScore sampleText = 63 := by
  rw [baseScore, sampleText_wordCount]
  rw [if_neg (by omega : ¬ (300 ≤ 1 ∧ 1 ≤ 800)), if_pos (by omega : 1 < 100)]
  have hge : avgGE sampleText 15 = false := by
    rw [avgGE, sampleText_avg]; norm_num
  have hvoc : (3 : ℚ)/5 < vocabularyRichness sampleText := by
    rw [sampleText_richness]; norm_num
  rw [hge, if_pos hvoc]
  norm_num

theorem sampleText_rawArgHigh : overallScoreRaw sampleText dArgHigh = 57 := by
  rw [overallScoreRaw, sampleText_base]
  show max 50 (min 98 (63 + ((0 : ℚ) * 12 - 6))) = 57
  norm_num

theorem sampleText_argValue :
    (breakdown sampleText dArgHigh).arguments = 1025/16 := by
  show min 100 (overallScoreRaw sampleText dArgHigh + ((15 : ℚ)/16 * 15 - 7)) = 1025/16
  rw [sampleText_rawArgHigh]
  norm_num

/-! ### C3 -/

/-- C3 is false as stated: at the accepted text `"0123456789"` and the valid
draw `15/16` for the arguments category, the arguments breakdown equals
`overallScoreRaw + 113/16`, and `113/16 ≥ 7`, so it is not expressible as
`min(100, overallScore + p)` for any `p ∈ [−7, +7)`. -/
theorem arguments_halfwidth_cex :
    dArgHigh.valid ∧ 10 ≤ (jsTrim sampleText).length ∧
    ¬ ∃ p : ℚ, -7 ≤ p ∧ p < 7 ∧
        (breakdown sampleText dArgHigh).arguments =
          min 100 (overallScoreRaw sampleText dArgHigh + p) := by
  refine ⟨by norm_num [Draws.valid, unitIntv, dArgHigh], by decide, ?_⟩
  rintro ⟨p, hp1, hp2, hp3⟩
  rw [sampleText_argValue, sampleText_rawArgHigh] at hp3
  rw [min_eq_right (by linarith : (57 : ℚ) + p ≤ 100)] at hp3
  linarith

/-- C3 amended: each breakdown category is `min(100, overallScoreRaw + p)`
with `p` drawn as in the source: grammar `p ∈ [−5, 5)`, structure
`p ∈ [−4, 4)`, coherence `p ∈ [−6, 6)`, vocabulary `p ∈ [−5, 5)`, and
arguments `p = r·15 − 7 ∈ [−7, +8)` — the arguments perturbation is not
symmetric. -/
theorem breakdown_perturbation_ranges (t : List Char) (d : Draws)
    (ht : 10 ≤ (jsTrim t).length) (hd : d.valid) :
    ((breakdown t d).grammar = min 100 (overallScoreRaw t d + (d.rGrammar * 10 - 5)) ∧
      -5 ≤ d.rGrammar * 10 - 5 ∧ d.rGrammar * 10 - 5 < 5) ∧
    ((breakdown t d).structureScore = min 100 (overallScoreRaw t d + (d.rStructure * 8 - 4)) ∧
      -4 ≤ d.rStructure * 8 - 4 ∧ d.rStructure * 8 - 4 < 4) ∧
    ((breakdown t d).coherence = min 100 (overallScoreRaw t d + (d.rCoherence * 12 - 6)) ∧
      -6 ≤ d.rCoherence * 12 - 6 ∧ d.rCoherence * 12 - 6 < 6) ∧
    ((breakdown t d).vocabulary = min 100 (overallScoreRaw t d + (d.rVocabulary * 10 - 5)) ∧
      -5 ≤ d.rVocabulary * 10 - 5 ∧ d.rVocabulary * 10 - 5 < 5) ∧
    ((breakdown t d).arguments = min 100 (overallScoreRaw t d + (d.rArguments * 15 - 7)) ∧
      -7 ≤ d.rArguments * 15 - 7 ∧ d.rArguments * 15 - 7 < 8) := by
  obtain ⟨h0, h1, h2, h3, h4, h5⟩ := hd
  exact ⟨⟨rfl, by linarith [h1.1], by linarith [h1.2]⟩,
    ⟨rfl, by linarith [h2.1], by linarith [h2.2]⟩,
    ⟨rfl, by linarith [h3.1], by linarith [h3.2]⟩,
    ⟨rfl, by linarith [h4.1], by linarith [h4.2]⟩,
    ⟨rfl, by linarith [h5.1], by linarith [h5.2]⟩⟩

/-- Witness for the amended C3 at `"0123456789"` with all draws 0. -/
theorem breakdown_perturbation_ranges_witness :
    ((breakdown sampleText zeroDraws).grammar =
        min 100 (overallScoreRaw sampleText zeroDraws + (zeroDraws.rGrammar * 10 - 5)) ∧
      -5 ≤ zeroDraws.rGrammar * 10 - 5 ∧ zeroDraws.rGrammar * 10 - 5 < 5) ∧
    ((breakdown sampleText zeroDraws).structureScore =
        min 100 (overallScoreRaw sampleText zeroDraws + (zeroDraws.rStructure * 8 - 4)) ∧
      -4 ≤ zeroDraws.rStructure * 8 - 4 ∧ zeroDraws.rStructure * 8 - 4 < 4) ∧
    ((breakdown sampleText zeroDraws).coherence =
        min 100 (overallScoreRaw sampleText zeroDraws + (zeroDraws.rCoherence * 12 - 6)) ∧
      -6 ≤ zeroDraws.rCoherence * 12 - 6 ∧ zeroDraws.rCoherence * 12 - 6 < 6) ∧
    ((breakdown sampleText zeroDraws).vocabulary =
        min 100 (overallScoreRaw sampleText zeroDraws + (zeroDraws.rVocabulary * 10 - 5)) ∧
      -5 ≤ zeroDraws.rVocabulary * 10 - 5 ∧ zeroDraws.rVocabulary * 10 - 5 < 5) ∧
    ((breakdown sampleText zeroDraws).arguments =
        min 100 (overallScoreRaw sampleText zeroDraws + (zeroDraws.rArguments * 15 - 7)) ∧
      -7 ≤ zeroDraws.rArguments * 15 - 7 ∧ zeroDraws.rArguments * 15 - 7 < 8) :=
  breakdown_perturbation_ranges sampleText zeroDraws (by decide) (by decide)

/-! ### C4 -/

/-- C4 is false as stated: the ten-dot text is accepted (trimmed length 10),
its split yields zero non-empty fragments, and the engine's sentence count is
0, not 1 — there is no minimum. -/
theorem sentenceCount_zero_cex :
    (jsTrim tenDots).length = 10 ∧ sentenceCount tenDots = 0 ∧
    ¬ (1 ≤ sentenceCount tenDots) := by decide

/-- C4 amended: the sentence count is the plain number of non-empty
fragments, with no floor.  When it is 0 the average sentence length is the
JavaScript division `wordCount / 0 = +Infinity` (modelled `none`): evaluation
still completes, the sentence-length bonus is never granted, and the
readability label is `Graduate Level`. -/
theorem sentenceCount_no_floor (t : List Char) (h : sentenceCount t = 0) :
    avgSentenceLength t = none ∧ (avgGE t 15 && avgLE t 25) = false ∧
    readability t = "Graduate Level" := by
  have havg : avgSentenceLength t = none := by rw [avgSentenceLength, if_pos h]
  have hle : avgLE t 25 = false := by rw [avgLE, havg]
  have hlt : avgLT t 15 = false := by rw [avgLT, havg]
  have hgt : avgGT t 25 = true := by rw [avgGT, havg]
  refine ⟨havg, ?_, ?_⟩
  · rw [hle, Bool.and_false]
  · rw [readability, hlt, hgt]
    rfl

/-- Witness for the amended C4 at the ten-dot text. -/
theorem sentenceCount_no_floor_witness :
    avgSentenceLength tenDots = none ∧ (avgGE tenDots 15 && avgLE tenDots 25) = false ∧
    readability tenDots = "Graduate Level" :=
  sentenceCount_no_floor tenDots (by decide)

/-! ### C5 -/

/-- C5 is false as stated: `" cats cats cats"` (leading space, accepted) has
engine vocabulary richness `2/4 = 1/2` — the untrimmed split contributes an
empty token — while the claimed formula (distinct tokens over `wordCount`)
gives `1/3`; the same text without the leading space yields `1/3`, so texts
differing only in leading whitespace disagree. -/
theorem vocabularyRichness_untrimmed_cex :
    10 ≤ (jsTrim wsCats).length ∧ wsCats = ' ' :: catsTxt ∧
    vocabularyRichness wsCats = 1/2 ∧
    specVocabularyRichness wsCats = 1/3 ∧
    vocabularyRichness catsTxt = 1/3 ∧
    vocabularyRichness wsCats ≠ specVocabularyRichness wsCats ∧
    vocabularyRichness wsCats ≠ vocabularyRichness catsTxt := by
  have h1 : vocabularyRichness wsCats = 1/2 := by
    rw [vocabularyRichness, (by decide : uniqueWordCount wsCats = 2),
      (by decide : (words wsCats).length = 4)]
    norm_num
  have h2 : specVocabularyRichness wsCats = 1/3 := by
    rw [specVocabularyRichness,
      (by decide :
        (((splitRuns jsWs (jsTrim wsCats)).map (List.map jsLowerChar)).dedup.length : Nat) = 1),
      (by decide : wordCount wsCats = 3)]
    norm_num
  have h3 : vocabularyRichness catsTxt = 1/3 := by
    rw [vocabularyRichness, (by decide : uniqueWordCount catsTxt = 1),
      (by decide : (words catsTxt).length = 3)]
    norm_num
  refine ⟨by decide, by decide, h1, h2, h3, ?_, ?_⟩
  · rw [h1, h2]; norm_num
  · rw [h1, h3]; norm_num

/-- C5 amended: the engine divides the distinct count of the fragments of the
untrimmed lowercased text by the total number of those fragments; for a text
with no leading or trailing whitespace this coincides with the claimed
distinct-tokens-over-wordCount formula (but not in general). -/
theorem vocabularyRichness_trimmed_agree (t : List Char) (h : jsTrim t = t) :
    vocabularyRichness t = specVocabularyRichness t := by
  have hw : words t = (splitRuns jsWs (jsTrim t)).map (List.map jsLowerChar) := by
    rw [words, splitRuns_map jsWs jsLowerChar jsWs_jsLowerChar, h]
  rw [vocabularyRichness, specVocabularyRichness, uniqueWordCount, hw, wordCount,
    List.length_map]

/-- Witness for the amended C5 at `"cats cats cats"`. -/
theorem vocabularyRichness_trimmed_agree_witness :
    vocabularyRichness catsTxt = specVocabularyRichness catsTxt :=
  vocabularyRichness_trimmed_agree catsTxt (by decide)

/-! ### C7 -/

theorem wordText_wordCount : wordCount wordText = 60 := by decide

theorem wordText_base : baseScore wordText = 55 := by
  have havg : avgSentenceLength wordText = some 60 := by
    rw [avgSentenceLength, if_neg (by decide : ¬ sentenceCount wordText = 0),
      wordText_wordCount, (by decide : sentenceCount wordText = 1)]
    norm_num
  have hrich : vocabularyRichness wordText = 2/61 := by
    rw [vocabularyRichness, (by decide : uniqueWordCount wordText = 2),
      (by decide : (words wordText).length = 61)]
    norm_num
  have hle : avgLE wordText 25 = false := by
    rw [avgLE, havg]; norm_num
  rw [baseScore, wordText_wordCount]
  rw [if_neg (by omega : ¬ (300 ≤ 60 ∧ 60 ≤ 800)), if_pos (by omega : 60 < 100)]
  rw [hle, Bool.and_false]
  rw [if_neg (by rw [hrich]; norm_num : ¬ (3 : ℚ)/5 < vocabularyRichness wordText)]
  norm_num

/-- C7 is false as stated: `"word ".repeat(60)` contains 60 words, not 300,
so the `wordCount < 100` penalty applies and the base score is
`70 − 15 = 55`, not `70 + 10 = 80`. -/
theorem wordText_baseScore_cex :
    wordCount wordText = 60 ∧ baseScore wordText = 55 ∧ baseScore wordText ≠ 80 := by
  refine ⟨wordText_wordCount, wordText_base, ?_⟩
  rw [wordText_base]; norm_num

/-- C7 amended: with every draw of the random source fixed to 0, evaluating
`"word ".repeat(60)` (60 words, hence the short-essay penalty) gives
`baseScore = 55`; the overall perturbation is `0·12 − 6 = −6`, so the clamped
raw score is `max(50, 49) = 50` and the returned `overallScore` is exactly
`50.0`.  The embedded engine is a pure function of the text and the draws, so
this value is deterministic and reproducible across repeated evaluations. -/
theorem wordText_deterministic_eval :
    wordCount wordText = 60 ∧ baseScore wordText = 55 ∧
    overallScoreRaw wordText zeroDraws = 50 ∧
    overallScore wordText zeroDraws = 50 := by
  have hraw : overallScoreRaw wordText zeroDraws = 50 := by
    rw [overallScoreRaw, wordText_base]
    show max 50 (min 98 (55 + ((0 : ℚ) * 12 - 6))) = 50
    norm_num
  refine ⟨wordText_wordCount, wordText_base, hraw, ?_⟩
  rw [overallScore, hraw, jsRound]
  rw [show ((50 : ℚ) * 10 + 1/2) = 1001/2 by norm_num]
  rw [show (⌊(1001/2 : ℚ)⌋ : ℤ) = 500 by rw [Int.floor_eq_iff] <;> norm_num]
  norm_num

/-! ### C6 -/

/-- A request `level` value the HTTP interface admits: absent, empty (falsy,
defaulted), or a member of the schema enum. -/
def levelOptOk : Option String → Prop
  | none => True
  | some l => l = "" ∨ validLevel l

/-- The level string the endpoint resolves (`level || 'undergrad'`). -/
def resolvedLevel : Option String → String
  | some l => if l = "" then "undergrad" else l
  | none => "undergrad"

theorem postEvaluate_accepted (store : List Essay) (s : List Char)
    (univ : Option (List Char)) (level : Option String) (d : Draws)
    (hs : 10 ≤ (jsTrim s).length) (hl : levelOptOk level) :
    postEvaluate store (some s) univ level d =
      (201, store ++ [newEssay s univ (resolvedLevel level) d]) := by
  have hne : ¬ (s = [] ∨ (jsTrim s).length < 10) := by
    rintro (rfl | hlt)
    · exact absurd hs (by decide)
    · omega
  have hvl : validLevel (resolvedLevel level) := by
    cases level with
    | none => exact Or.inl rfl
    | some l =>
      rcases hl with h | h
      · rw [resolvedLevel, if_pos h]; exact Or.inl rfl
      · rw [resolvedLevel]
        rcases h with h | h
        · rw [if_neg (by simp [h] : ¬ l = ""), h]; exact Or.inl rfl
        · rw [if_neg (by simp [h] : ¬ l = ""), h]; exact Or.inr rfl
  have hlen : 10 ≤ s.length := le_trans hs (jsTrim_length_le s)
  show (if s = [] ∨ (jsTrim s).length < 10 then (400, store)
    else if validLevel (resolvedLevel level) ∧ 10 ≤ s.length then
      (201, store ++ [newEssay s univ (resolvedLevel level) d])
    else (500, store)) = (201, store ++ [newEssay s univ (resolvedLevel level) d])
  rw [if_neg hne, if_pos ⟨hvl, hlen⟩]

/-- C6: a request whose text is absent or has trimmed length < 10 fails with
400 and leaves the store untouched; a request whose text has trimmed length
≥ 10 (with an interface-conforming level) appends exactly one new submission,
persisted with the assembled assessment and status `evaluated`, and returns
201. -/
theorem evaluate_endpoint_validation (store : List Essay)
    (text univ : Option (List Char)) (level : Option String) (d : Draws)
    (hl : levelOptOk level) :
    ((text = none ∨ ∃ s, text = some s ∧ (jsTrim s).length < 10) →
        postEvaluate store text univ level d = (400, store)) ∧
    (∀ s, text = some s → 10 ≤ (jsTrim s).length →
        ∃ e, postEvaluate store text univ level d = (201, store ++ [e]) ∧
          e.results = some (evaluateEssayAI s d) ∧ e.status = "evaluated" ∧
          e.text = s ∧ (store ++ [e]).length = store.length + 1) := by
  constructor
  · rintro (rfl | ⟨s, rfl, hlt⟩)
    · rfl
    · show (if s = [] ∨ (jsTrim s).length < 10 then ((400 : Nat), store)
        else if validLevel (resolvedLevel level) ∧ 10 ≤ s.length then
          (201, store ++ [newEssay s univ (resolvedLevel level) d])
        else (500, store)) = (400, store)
      rw [if_pos (Or.inr hlt)]
  · rintro s rfl hs
    exact ⟨newEssay s univ (resolvedLevel level) d,
      postEvaluate_accepted store s univ level d hs hl, rfl, rfl, rfl, by simp⟩

/-- Witness for C6: `"hi"` is rejected with 400 on an empty store; the
ten-character `"0123456789"` is accepted with 201 and persisted. -/
theorem evaluate_endpoint_validation_witness :
    postEvaluate [] (some hiText) none none zeroDraws = (400, []) ∧
    ∃ e, postEvaluate [] (some sampleText) none none zeroDraws = (201, [] ++ [e]) ∧
      e.results = some (evaluateEssayAI sampleText zeroDraws) ∧ e.status = "evaluated" ∧
      e.text = sampleText ∧ ([] ++ [e]).length = ([] : List Essay).length + 1 :=
  ⟨(evaluate_endpoint_validation [] (some hiText) none none zeroDraws trivial).1
      (Or.inr ⟨hiText, rfl, by decide⟩),
    (evaluate_endpoint_validation [] (some sampleText) none none zeroDraws trivial).2
      sampleText rfl (by decide)⟩

/-! ### C8 -/

/-- A draft submission used as the stored state for update counterexamples
and witnesses. -/
def e0 : Essay :=
  { userId := none, text := sampleText, university := [], level := "undergrad"
  , wordCount := 1, charCount := 10, results := none, status := "draft" }

/-- A five-character replacement text. -/
def shortText : List Char := ("short").data

/-- An eighteen-character replacement text. -/
def longText : List Char := ("hello there friend").data

/-- C8 is false as stated: an update supplying the five-character text
`"short"` fails Mongoose's `minlength: 10` validation (run with
`runValidators: true`), returns 500, and stores nothing — the new text is
not stored and no counts are recomputed. -/
theorem update_short_text_cex :
    putEssay [e0] 0 (some shortText) none none none = (500, [e0]) ∧
    e0.text ≠ shortText := by
  exact ⟨rfl, by decide⟩

/-- C8 amended: an update supplying a non-empty new text of length ≥ 10
(with any university value and interface-conforming level/status values)
stores the new text, recomputes `wordCount` as the whitespace-token count of
the trimmed new text and `charCount` as its length, and leaves the stored
`results` (assessment) unchanged — the engine is not re-run.  A supplied
non-empty text shorter than 10 characters instead fails validation with 500
and changes nothing. -/
theorem update_text_recompute_frame (store : List Essay) (i : Nat) (e : Essay)
    (s : List Char) (univ : Option (List Char)) (lvl st : Option String)
    (he : store.get? i = some e) (hs : s ≠ []) (hlen : 10 ≤ s.length)
    (hlv : levelOptOk lvl)
    (hst : match st with | none => True | some x => x = "" ∨ validStatus x) :
    ∃ e', putEssay store i (some s) univ lvl st = (200, store.set i e') ∧
      e'.text = s ∧ e'.wordCount = wordCount s ∧ e'.charCount = s.length ∧
      e'.results = e.results := by
  rw [putEssay.eq_def]
  simp only [he]
  rw [if_neg hs]
  have h1 : (some s).any (fun s => decide (s.length < 10)) = false := by
    simp only [Option.any_some]
    exact decide_eq_false (by omega)
  rw [h1]
  have h2 : (match lvl with
      | some l => if l = "" then none else some l
      | none => none).any (fun l => decide (¬ validLevel l)) = false := by
    cases lvl with
    | none => rfl
    | some l =>
      rcases hlv with h | h
      · simp [h]
      · have : ¬ l = "" := by
          rcases h with h | h <;> simp [h]
        simp [this, h]
  rw [h2]
  have h3 : (match st with
      | some x => if x = "" then none else some x
      | none => none).any (fun x => decide (¬ validStatus x)) = false := by
    cases st with
    | none => rfl
    | some x =>
      rcases hst with h | h
      · simp [h]
      · have : ¬ x = "" := by
          rcases h with h | h | h <;> simp [h]
        simp [this, h]
  rw [h3]
  simp only [Bool.false_eq_true, if_false]
  exact ⟨_, rfl, rfl, rfl, rfl, rfl⟩

/-- Witness for the amended C8: updating the stored draft with an
eighteen-character text succeeds and recomputes the counts while keeping
`results` intact. -/
theorem update_text_recompute_frame_witness :
    ∃ e', putEssay [e0] 0 (some longText) none none none = (200, [e0].set 0 e') ∧
      e'.text = longText ∧ e'.wordCount = wordCount longText ∧
      e'.charCount = longText.length ∧ e'.results = e0.results :=
  update_text_recompute_frame [e0] 0 e0 longText none none none rfl
    (by decide) (by decide) trivial trivial

/-! ### C9 -/

/-- The store after evaluating `"0123456789"` on an empty store: one
submission with an attached assessment and status `evaluated`. -/
def evalStore : List Essay := (postEvaluate [] (some sampleText) none none zeroDraws).2

/-- The same store after a PUT setting `status` to `draft`. -/
def demotedStore : List Essay :=
  (putEssay evalStore 0 none none none (some ("draft"))).2

/-- C9 is false as stated: starting from the empty store, an evaluate request
followed by an update that sets `status: "draft"` yields a reachable store
whose single submission has an attached assessment but status `draft` — the
update endpoint sets `status` without regard to the presence of an
assessment. -/
theorem status_results_decoupled_cex :
    ¬ ∀ e ∈ demotedStore, (e.status = "evaluated" ↔ e.results ≠ none) := by
  intro h
  have hm : demotedStore =
      [{ newEssay sampleText none ("undergrad") zeroDraws with status := ("draft") }] := rfl
  have he := h _ (by rw [hm]; exact List.mem_singleton_self _)
  have h2 := he.mpr (by
    show (newEssay sampleText none ("undergrad") zeroDraws).results ≠ none
    rw [newEssay]
    exact Option.some_ne_none _)
  exact absurd h2 (by decide)

/-- C9 amended: evaluation attaches the assessment and sets status
`evaluated` in the same step, and updates never change `results`; but since
`PUT` accepts any enum status value regardless of the assessment, the
claimed equivalence is not an invariant — only its creation-time half holds. -/
theorem evaluate_couples_status_results :
    (∀ (store : List Essay) (s : List Char) (univ : Option (List Char))
        (level : Option String) (d : Draws),
        10 ≤ (jsTrim s).length → levelOptOk level →
        ∃ e, postEvaluate store (some s) univ level d = (201, store ++ [e]) ∧
          e.status = "evaluated" ∧ e.results ≠ none) ∧
    (∀ (store : List Essay) (i : Nat) (text univ : Option (List Char))
        (level status : Option String) (e e' : Essay),
        store.get? i = some e →
        (putEssay store i text univ level status).2.get? i = some e' →
        e'.results = e.results) := by
  constructor
  · intro store s univ level d hs hl
    refine ⟨newEssay s univ (resolvedLevel level) d,
      postEvaluate_accepted store s univ level d hs hl, rfl, ?_⟩
    rw [newEssay]
    exact Option.some_ne_none _
  · intro store i text univ level status e e' he h'
    rw [putEssay.eq_def] at h'
    simp only [he] at h'
    split at h'
    · rw [he] at h'; injection h' with h'; rw [h']
    · split at h'
      · rw [he] at h'; injection h' with h'; rw [h']
      · split at h'
        · rw [he] at h'; injection h' with h'; rw [h']
        · rw [List.get?_set_eq_of_lt _ (get?_some_lt he)] at h'
          injection h' with h'
          rw [← h']

/-- Witness for the amended C9: the evaluate half at `"0123456789"` on the
empty store, and the update half at a stored draft archived by a PUT. -/
theorem evaluate_couples_status_results_witness :
    (∃ e, postEvaluate [] (some sampleText) none none zeroDraws = (201, [] ++ [e]) ∧
      e.status = "evaluated" ∧ e.results ≠ none) ∧
    ({ e0 with status := ("archived") } : Essay).results = e0.results :=
  ⟨evaluate_couples_status_results.1 [] sampleText none none zeroDraws
      (by decide) trivial,
    evaluate_couples_status_results.2 [e0] 0 none none none (some ("archived"))
      e0 { e0 with status := ("archived") } rfl rfl⟩

/-! ### C10 -/

/-- C10: in an update request, an empty-string `text`, `level` or `status` is
falsy and silently ignored — with all three supplied empty the stored record
is completely unchanged and the request succeeds with 200 — whereas an
empty-string `university` passes the `!== undefined` test and clears the
stored label; and no update request can ever make a stored text empty. -/
theorem update_empty_string_semantics (store : List Essay) (i : Nat) (e : Essay)
    (he : store.get? i = some e) :
    putEssay store i (some []) none (some "") (some "") = (200, store) ∧
    (putEssay store i none (some []) none none).2.get? i =
      some { e with university := [] } ∧
    (∀ (text univ : Option (List Char)) (lvl st : Option String) (e' : Essay),
        (putEssay store i text univ lvl st).2.get? i = some e' →
        e'.text = e.text ∨ e'.text ≠ []) := by
  refine ⟨?_, ?_, ?_⟩
  · rw [putEssay.eq_def, he]
    exact congrArg (fun l => ((200 : Nat), l)) (set_get?_same he)
  · rw [putEssay.eq_def, he]
    exact List.get?_set_eq_of_lt _ (get?_some_lt he)
  · intro text univ lvl st e' h'
    rw [putEssay.eq_def] at h'
    simp only [he] at h'
    split at h'
    · rw [he] at h'; injection h' with h'; exact Or.inl (by rw [h'])
    · split at h'
      · rw [he] at h'; injection h' with h'; exact Or.inl (by rw [h'])
      · split at h'
        · rw [he] at h'; injection h' with h'; exact Or.inl (by rw [h'])
        · rw [List.get?_set_eq_of_lt _ (get?_some_lt he)] at h'
          injection h' with h'
          cases text with
          | none => exact Or.inl (by rw [← h']; rfl)
          | some s =>
            by_cases hse : s = []
            · refine Or.inl ?_
              rw [← h']
              show (if s = [] then (none : Option (List Char)) else some s).getD e.text = e.text
              rw [if_pos hse]
              rfl
            · refine Or.inr ?_
              rw [← h']
              show (if s = [] then (none : Option (List Char)) else some s).getD e.text ≠ []
              rw [if_neg hse]
              exact hse

/-- Witness for C10 at a one-element store: the all-empty update is a
no-op with 200, and the empty-university update clears the label. -/
theorem update_empty_string_semantics_witness :
    putEssay [e0] 0 (some []) none (some "") (some "") = (200, [e0]) ∧
    (putEssay [e0] 0 none (some []) none none).2.get? 0 =
      some { e0 with university := [] } :=
  ⟨(update_empty_string_semantics [e0] 0 e0 rfl).1,
    (update_empty_string_semantics [e0] 0 e0 rfl).2.1⟩

end AIEssay
